import Mathlib

/-!
Shallow embedding of the core services of the boutique ML recommendation
service: `FAISSService` (app/services/faiss_service.py) and
`RecommendationService` (app/services/recommendation_service.py).

Python dictionaries are modelled as insertion-ordered association lists
(`alookup`/`aset`), numpy float vectors as `List ℚ`, the FAISS flat indexes as
the list of stored vectors together with the metric induced by the index type,
and Python's stable `sorted` (and the ranked output of a flat FAISS index) as
a stable insertion sort `sortedBy`.  Exceptions raised by the Python methods
are modelled as an `Option String` / `Except String` error component; state
mutated before the raise point is returned alongside the error.
-/

namespace BoutiqueML

/-- Metadata payloads (Python `Dict` values); the services only store and copy
them, so string key/value pairs suffice. -/
abbrev MetaD := List (String × String)

/-- Lookup in an association list: the model of Python dict access
(`d.get(k)` / `k in d`). -/
def alookup {α β : Type} [DecidableEq α] : List (α × β) → α → Option β
  | [], _ => none
  | (k, v) :: rest, a => if a = k then some v else alookup rest a

/-- Dict assignment `d[k] = v`: updates in place when the key exists, else
appends, preserving insertion order like a Python dict. -/
def aset {α β : Type} [DecidableEq α] : List (α × β) → α → β → List (α × β)
  | [], a, b => [(a, b)]
  | (k, v) :: rest, a, b => if a = k then (a, b) :: rest else (k, v) :: aset rest a b

/-- Stable insertion of `x` before the first element `y` with `le x y`. -/
def insertRanked {α : Type} (le : α → α → Bool) (x : α) : List α → List α
  | [] => [x]
  | y :: ys => if le x y then x :: y :: ys else y :: insertRanked le x ys

/-- Stable sort by the boolean relation `le` (for a total preorder this agrees
with Python's stable `sorted`). -/
def sortedBy {α : Type} (le : α → α → Bool) : List α → List α
  | [] => []
  | x :: xs => insertRanked le x (sortedBy le xs)

/-- Inner product of two vectors (`faiss.IndexFlatIP` raw score). -/
def dot (a b : List ℚ) : ℚ := ((a.zip b).map (fun p => p.1 * p.2)).sum

/-- Squared Euclidean distance (`faiss.IndexFlatL2` raw score). -/
def sqDist (a b : List ℚ) : ℚ := ((a.zip b).map (fun p => (p.1 - p.2) ^ 2)).sum

/-- FAISS index types supported by `FAISSService.create_index`. -/
inductive IndexType
  | L2
  | Cosine
  | IVF
deriving DecidableEq

/-- Raw metric computed by the underlying flat index. -/
inductive Metric
  | L2sq
  | IP
deriving DecidableEq

/-- Metric of each index type: `IndexFlatL2` for "L2", `IndexFlatIP` for
"Cosine", and an L2-quantized `IndexIVFFlat` for "IVF". -/
def metricOf : IndexType → Metric
  | IndexType.Cosine => Metric.IP
  | _ => Metric.L2sq

/-- Raw score of a stored vector against the query under a metric. -/
def rawScore : Metric → List ℚ → List ℚ → ℚ
  | Metric.L2sq, q, v => sqDist q v
  | Metric.IP, q, v => dot q v

/-- FAISS result order: ascending distance for L2, descending inner product. -/
def betterB : Metric → ℚ → ℚ → Bool
  | Metric.L2sq, a, b => decide (a ≤ b)
  | Metric.IP, a, b => decide (b ≤ a)

/-- A 2-D numpy float array: `dim` is `shape[1]`, every row has that length. -/
structure NDArray where
  dim : Nat
  rows : List (List ℚ)
  wf : ∀ r ∈ rows, r.length = dim

/-- State of `FAISSService`: declared embedding size, the optional FAISS index
(type plus stored vectors in insertion order), the position → image id
mapping, and the per-image metadata dict. -/
structure FAISSService where
  embedding_size : Nat
  index : Option (IndexType × List (List ℚ))
  id_mapping : List (Nat × String)
  metadata : List (String × MetaD)

/-- `FAISSService.__init__(embedding_size)`: no index yet, empty mappings.
The constructor performs no validation of `embedding_size`. -/
def mkFAISSService (embedding_size : Nat) : FAISSService :=
  { embedding_size := embedding_size, index := none, id_mapping := [], metadata := [] }

/-- `self.index.ntotal` (0 when no index has been created). -/
def FAISSService.ntotal (s : FAISSService) : Nat :=
  match s.index with
  | none => 0
  | some (_, vs) => vs.length

/-- `FAISSService.create_index(index_type)`: installs a fresh empty index of
the requested type, or raises `ValueError` for an unsupported type string.
No check on `embedding_size` is performed. -/
def create_index (s : FAISSService) (index_type : String) : FAISSService × Option String :=
  if index_type = "L2" then ({ s with index := some (IndexType.L2, []) }, none)
  else if index_type = "Cosine" then ({ s with index := some (IndexType.Cosine, []) }, none)
  else if index_type = "IVF" then ({ s with index := some (IndexType.IVF, []) }, none)
  else (s, some ("Tipo de indice no soportado: " ++ index_type))

/-- The `for i, image_id in enumerate(image_ids)` loop body
`self.id_mapping[current_size + i] = image_id`. -/
def updateMapping : List (Nat × String) → Nat → List String → List (Nat × String)
  | m, _, [] => m
  | m, cur, image_id :: rest => updateMapping (aset m cur image_id) (cur + 1) rest

/-- The `if metadata and i < len(metadata): self.metadata[image_id] =
metadata[i]` part of the same loop (updates stop once metadata runs out). -/
def updateMetadata : List (String × MetaD) → List String → List MetaD → List (String × MetaD)
  | md, _, [] => md
  | md, [], _ => md
  | md, image_id :: rest, mv :: mvs => updateMetadata (aset md image_id mv) rest mvs

/-- `FAISSService.add_embeddings`: creates a default L2 index when none
exists, validates `embeddings.shape[1]` against `embedding_size` and the
id/row counts, then appends all rows and assigns sequential positions
starting at the previous `ntotal`.  The state component carries any mutation
performed before a raise (only the default index creation). -/
def add_embeddings (s : FAISSService) (embeddings : NDArray) (image_ids : List String)
    (metadata : Option (List MetaD)) : FAISSService × Option String :=
  let tv := s.index.getD (IndexType.L2, [])
  let s1 := { s with index := some tv }
  if embeddings.dim ≠ s.embedding_size then (s1, some "DimensionMismatch")
  else if embeddings.rows.length ≠ image_ids.length then (s1, some "CountMismatch")
  else
    ({ s1 with
        index := some (tv.1, tv.2 ++ embeddings.rows),
        id_mapping := updateMapping s.id_mapping tv.2.length image_ids,
        metadata := updateMetadata s.metadata image_ids (metadata.getD []) }, none)

/-- `FAISSService.search`: empty/no index yields `[]`, a query of the wrong
length raises, otherwise the `min k ntotal` best raw scores are taken and,
when `return_distances` is set, every raw value is converted by
`1 / (1 + value)` regardless of the metric. -/
def search (s : FAISSService) (query_embedding : List ℚ) (k : Nat) (return_distances : Bool) :
    Except String (List (String × ℚ)) :=
  match s.index with
  | none => Except.ok []
  | some (t, vs) =>
    if vs.length = 0 then Except.ok []
    else if query_embedding.length ≠ s.embedding_size then Except.error "DimensionMismatch"
    else
      let m := metricOf t
      let kk := min k vs.length
      let scored := vs.enum.map (fun p => (p.1, rawScore m query_embedding p.2))
      let ranked := (sortedBy (fun a b => betterB m a.2 b.2) scored).take kk
      Except.ok (ranked.filterMap (fun p =>
        (alookup s.id_mapping p.1).map (fun image_id =>
          (image_id, if return_distances then 1 / (1 + p.2) else p.2))))

/-- On-disk snapshot as seen by `FAISSService.load_index`: the result of
deserializing the index file (`faiss.read_index`), and — when the companion
metadata file exists — the result of unpickling it: id mapping, metadata dict
and the declared `embedding_size`.  `Except.error` marks an artifact that
cannot be deserialized. -/
structure SnapshotFile where
  indexData : Except Unit (IndexType × List (List ℚ))
  metaFile : Option (Except Unit (List (Nat × String) × List (String × MetaD) × Nat))

/-- `FAISSService.load_index`: missing file returns `false`; an unreadable
index file raises with the state untouched; an unreadable metadata file
raises after the index has already been replaced; otherwise all fields are
replaced by the snapshot's contents with no consistency check between the
declared `embedding_size` and the vectors. -/
def load_index (s : FAISSService) (source : Option SnapshotFile) :
    FAISSService × Except String Bool :=
  match source with
  | none => (s, Except.ok false)
  | some f =>
    match f.indexData with
    | Except.error _ => (s, Except.error "read_index failed")
    | Except.ok tv =>
      match f.metaFile with
      | none => ({ s with index := some tv }, Except.ok true)
      | some (Except.error _) => ({ s with index := some tv }, Except.error "unpickle failed")
      | some (Except.ok (idm, md, esz)) =>
        ({ embedding_size := esz, index := some tv, id_mapping := idm, metadata := md },
         Except.ok true)

/-- State of `RecommendationService`: nested-defaultdict co-occurrence
matrix, per-user interaction histories, and the popularity `Counter`. -/
structure RecommendationService where
  co_occurrence_matrix : List (String × List (String × Nat))
  user_interactions : List (String × List (String × Nat))
  product_popularity : List (String × Nat)
deriving DecidableEq

/-- `RecommendationService.__init__`: everything empty. -/
def mkRecommendationService : RecommendationService :=
  { co_occurrence_matrix := [], user_interactions := [], product_popularity := [] }

/-- One defaultdict increment `self.co_occurrence_matrix[a][b] += 1`
(creates the row and the cell as needed). -/
def dbump (m : List (String × List (String × Nat))) (a b : String) :
    List (String × List (String × Nat)) :=
  let row := (alookup m a).getD []
  aset m a (aset row b ((alookup row b).getD 0 + 1))

/-- Observed co-occurrence count `m[a][b]` (0 when absent, as returned by the
defaultdicts). -/
def coocCount (m : List (String × List (String × Nat))) (a b : String) : Nat :=
  (alookup ((alookup m a).getD []) b).getD 0

/-- Body of the `for other_product in recent_products` loop of
`register_interaction`: skip the product itself, otherwise increment the
co-occurrence count in both directions. -/
def coocStep (product_id : String) (m : List (String × List (String × Nat)))
    (other_product : String) : List (String × List (String × Nat)) :=
  if other_product = product_id then m
  else dbump (dbump m product_id other_product) other_product product_id

/-- `RecommendationService.register_interaction`: appends to the user's
history, increments popularity, then for every element of
`self.user_interactions[user_id][-11:-1]` other than `product_id` increments
the co-occurrence count in both directions; returns the new history length.
The interaction type is only logged. -/
def register_interaction (s : RecommendationService) (user_id product_id : String)
    (_interaction_type : String) (timestamp : Nat) : RecommendationService × Nat :=
  let hist := (alookup s.user_interactions user_id).getD [] ++ [(product_id, timestamp)]
  let recent_products := ((hist.take (hist.length - 1)).drop (hist.length - 11)).map Prod.fst
  ({ co_occurrence_matrix :=
      recent_products.foldl (coocStep product_id) s.co_occurrence_matrix,
     user_interactions := aset s.user_interactions user_id hist,
     product_popularity :=
      aset s.product_popularity product_id
        ((alookup s.product_popularity product_id).getD 0 + 1) },
    hist.length)

/-- One recorded interaction event of a replayed trace. -/
structure InteractionEvent where
  user_id : String
  product_id : String
  interaction_type : String
  timestamp : Nat

/-- Replay a trace of `register_interaction` calls from a given state. -/
def applyTrace (s : RecommendationService) : List InteractionEvent → RecommendationService
  | [] => s
  | e :: rest =>
    applyTrace (register_interaction s e.user_id e.product_id e.interaction_type e.timestamp).1 rest

/-- Replay a trace of `register_interaction` calls from the empty state. -/
def runTrace (tr : List InteractionEvent) : RecommendationService :=
  applyTrace mkRecommendationService tr

/-- `RecommendationService.get_visual_recommendations`: the body only builds
`recommendations = []` with a TODO to implement the real FAISS lookup, so
every call returns the empty list. -/
def get_visual_recommendations (_s : RecommendationService) (_product_id : String) (_n : Nat) :
    List (String × ℚ × String) := []

/-- `max(co_occurrences.values())` over the row (values are `Nat`s, so the
0 seed does not change the maximum of a non-empty row). -/
def maxVals (l : List (String × Nat)) : Nat := l.foldl (fun acc p => max acc p.2) 0

/-- `RecommendationService.get_collaborative_recommendations`: empty row (or
absent key) yields `[]`; otherwise sort the row by count descending, take
`n`, and normalize each count by the row maximum. -/
def get_collaborative_recommendations (s : RecommendationService) (product_id : String)
    (n : Nat) : List (String × ℚ × String) :=
  match alookup s.co_occurrence_matrix product_id with
  | none => []
  | some co_occurrences =>
    if co_occurrences.isEmpty then []
    else
      let sorted_products := (sortedBy (fun a b => decide (b.2 ≤ a.2)) co_occurrences).take n
      let max_count := maxVals co_occurrences
      sorted_products.map
        (fun p => (p.1, (p.2 : ℚ) / (max_count : ℚ), "Visto junto " ++ toString p.2 ++ " veces"))

/-- `RecommendationService.get_hybrid_recommendations`: fetch `2n` visual and
collaborative candidates, combine weighted scores in the `combined_scores`
dict (missing contribution 0), join the reasons, sort by total descending
and truncate to `n`. -/
def get_hybrid_recommendations (s : RecommendationService) (product_id : String) (n : Nat)
    (visual_weight collaborative_weight : ℚ) : List (String × ℚ × String) :=
  let visual_recs := get_visual_recommendations s product_id (n * 2)
  let collab_recs := get_collaborative_recommendations s product_id (n * 2)
  let c1 : List (String × (ℚ × ℚ × List String)) :=
    visual_recs.foldl (fun acc r => aset acc r.1 (r.2.1 * visual_weight, 0, [r.2.2])) []
  let c2 := collab_recs.foldl
    (fun acc r =>
      match alookup acc r.1 with
      | some v => aset acc r.1 (v.1, r.2.1 * collaborative_weight, v.2.2 ++ [r.2.2])
      | none => aset acc r.1 (0, r.2.1 * collaborative_weight, [r.2.2]))
    c1
  let finals := c2.map (fun p => (p.1, p.2.1 + p.2.2.1, String.intercalate " + " p.2.2.2))
  (sortedBy (fun a b => decide (b.2.1 ≤ a.2.1)) finals).take n

/-- `RecommendationService._get_popular_products`: top `n` by popularity,
normalized by the maximum count among them. -/
def get_popular_products (s : RecommendationService) (n : Nat) : List (String × ℚ × String) :=
  let most_common := (sortedBy (fun a b => decide (b.2 ≤ a.2)) s.product_popularity).take n
  let max_count : Nat :=
    match most_common with
    | [] => 1
    | p :: _ => p.2
  most_common.map (fun p => (p.1, (p.2 : ℚ) / (max_count : ℚ), "Producto popular"))

/-- `RecommendationService.get_recommendations`: resolve the anchor (falling
back to the user's most recent product, then to the popularity ranking),
then dispatch on the strategy string; every string other than "visual" and
"collaborative" takes the `else` branch, i.e. hybrid with weights 0.5/0.5. -/
def get_recommendations (s : RecommendationService) (product_id user_id : Option String)
    (n : Nat) (strategy : String) : List (String × ℚ × String) :=
  let anchor : Option String :=
    match product_id, user_id with
    | none, some u =>
      match (alookup s.user_interactions u).getD [] with
      | [] => none
      | h :: t => some (((h :: t).getLast (List.cons_ne_nil h t)).1)
    | p, _ => p
  match anchor with
  | none => get_popular_products s n
  | some pid =>
    if strategy = "visual" then get_visual_recommendations s pid n
    else if strategy = "collaborative" then get_collaborative_recommendations s pid n
    else get_hybrid_recommendations s pid n (1 / 2) (1 / 2)

/-! ### Association list lemmas -/

theorem alookup_aset_self {α β : Type} [DecidableEq α] (l : List (α × β)) (k : α) (v : β) :
    alookup (aset l k v) k = some v := by
  induction l with
  | nil => simp [aset, alookup]
  | cons p rest ih =>
    obtain ⟨a, b⟩ := p
    by_cases h : k = a <;> simp [aset, alookup, h, ih]

theorem alookup_aset_ne {α β : Type} [DecidableEq α] (l : List (α × β)) (k : α) (v : β)
    (a : α) (h : a ≠ k) : alookup (aset l k v) a = alookup l a := by
  induction l with
  | nil => simp [aset, alookup, h]
  | cons p rest ih =>
    obtain ⟨x, y⟩ := p
    by_cases hk : k = x
    · subst hk
      simp [aset, alookup, h]
    · by_cases ha : a = x <;> simp [aset, alookup, hk, ha, ih]

/-! ### Stable sort lemmas -/

theorem length_insertRanked {α : Type} (le : α → α → Bool) (x : α) (l : List α) :
    (insertRanked le x l).length = l.length + 1 := by
  induction l with
  | nil => simp [insertRanked]
  | cons y ys ih => by_cases h : le x y <;> simp [insertRanked, h, ih]

theorem length_sortedBy {α : Type} (le : α → α → Bool) (l : List α) :
    (sortedBy le l).length = l.length := by
  induction l with
  | nil => rfl
  | cons x xs ih => simp [sortedBy, length_insertRanked, ih]

/-! ### Co-occurrence update lemmas -/

theorem coocCount_dbump_self (m : List (String × List (String × Nat))) (a b : String) :
    coocCount (dbump m a b) a b = coocCount m a b + 1 := by
  simp [dbump, coocCount, alookup_aset_self]

theorem coocCount_dbump_ne (m : List (String × List (String × Nat))) (a b x y : String)
    (h : ¬(x = a ∧ y = b)) : coocCount (dbump m a b) x y = coocCount m x y := by
  by_cases hx : x = a
  · subst hx
    have hy : y ≠ b := fun hy => h ⟨rfl, hy⟩
    simp [dbump, coocCount, alookup_aset_self, alookup_aset_ne _ _ _ _ hy]
  · simp [dbump, coocCount, alookup_aset_ne _ _ _ _ hx]

theorem coocCount_dbump (m : List (String × List (String × Nat))) (a b x y : String) :
    coocCount (dbump m a b) x y = coocCount m x y + if x = a ∧ y = b then 1 else 0 := by
  by_cases h : x = a ∧ y = b
  · obtain ⟨hx, hy⟩ := h
    subst hx; subst hy
    simp [coocCount_dbump_self]
  · simp [coocCount_dbump_ne _ _ _ _ _ h, h]

theorem diag_dbump (m : List (String × List (String × Nat))) (a b : String) (hab : a ≠ b)
    (x : String) (hd : alookup ((alookup m x).getD []) x = none) :
    alookup ((alookup (dbump m a b) x).getD []) x = none := by
  by_cases hx : x = a
  · subst hx
    have hb : x ≠ b := hab
    simp only [dbump, alookup_aset_self, Option.getD_some]
    rw [alookup_aset_ne _ _ _ _ hb]
    exact hd
  · simp only [dbump]
    rw [alookup_aset_ne _ _ _ _ hx]
    exact hd

theorem coocCount_coocStep (p q : String) (hq : q ≠ p)
    (m : List (String × List (String × Nat))) (o : String) :
    coocCount (coocStep p m o) p q = coocCount m p q + if o = q then 1 else 0 := by
  by_cases ho : o = p
  · subst ho
    have : ¬(o = q) := fun h => hq (h ▸ rfl)
    simp [coocStep, this]
  · rw [coocStep, if_neg ho, coocCount_dbump, coocCount_dbump]
    have h1 : ¬(p = o ∧ q = p) := fun h => hq h.2
    by_cases hoq : o = q
    · subst hoq
      simp [h1]
    · have h2 : ¬(p = p ∧ q = o) := fun h => hoq (h.2 ▸ rfl)
      have h3 : ¬q = o := fun h => hoq h.symm
      simp [h1, h2, h3, hoq]

theorem coocCount_foldl_coocStep (p q : String) (hq : q ≠ p) (l : List String)
    (m : List (String × List (String × Nat))) :
    coocCount (l.foldl (coocStep p) m) p q = coocCount m p q + l.count q := by
  induction l generalizing m with
  | nil => simp
  | cons o rest ih =>
    rw [List.foldl_cons, ih, coocCount_coocStep p q hq, List.count_cons]
    by_cases hoq : o = q
    · simp [hoq]
      omega
    · simp [hoq]

/-- Invariant of the co-occurrence matrix: symmetric counts and no
self-pair key is ever present in a row. -/
def CoocInv (m : List (String × List (String × Nat))) : Prop :=
  (∀ a b, coocCount m a b = coocCount m b a)
  ∧ (∀ a, alookup ((alookup m a).getD []) a = none)

theorem coocInv_coocStep (p : String) (m : List (String × List (String × Nat))) (o : String)
    (h : CoocInv m) : CoocInv (coocStep p m o) := by
  by_cases ho : o = p
  · simpa [coocStep, ho] using h
  · constructor
    · intro a b
      rw [coocStep, if_neg ho, coocCount_dbump, coocCount_dbump, coocCount_dbump,
        coocCount_dbump, h.1 a b]
      simp only [and_comm]
      ring
    · intro a
      rw [coocStep, if_neg ho]
      exact diag_dbump _ o p (Ne.symm (fun h' => ho h'.symm)) a
        (diag_dbump m p o (fun h' => ho h'.symm) a (h.2 a))

theorem coocInv_foldl (p : String) (l : List String)
    (m : List (String × List (String × Nat))) (h : CoocInv m) :
    CoocInv (l.foldl (coocStep p) m) := by
  induction l generalizing m with
  | nil => exact h
  | cons o rest ih => exact ih _ (coocInv_coocStep p m o h)

theorem coocInv_register (s : RecommendationService) (u p ty : String) (ts : Nat)
    (h : CoocInv s.co_occurrence_matrix) :
    CoocInv (register_interaction s u p ty ts).1.co_occurrence_matrix :=
  coocInv_foldl p _ _ h

theorem coocInv_applyTrace (tr : List InteractionEvent) (s : RecommendationService)
    (h : CoocInv s.co_occurrence_matrix) :
    CoocInv (applyTrace s tr).co_occurrence_matrix := by
  induction tr generalizing s with
  | nil => exact h
  | cons e rest ih => exact ih _ (coocInv_register s _ _ _ _ h)

/-- The prior window described by the spec: the last `min(10, |hist|)`
entries of a history, as product ids. -/
def priorWindow (hist : List (String × Nat)) : List String :=
  (hist.drop (hist.length - 10)).map Prod.fst

/-- The slice `hist[-11:-1]` taken after the append equals the spec's prior
window of the history before the append. -/
theorem slice_eq_priorWindow (old : List (String × Nat)) (x : String × Nat) :
    ((((old ++ [x]).take ((old ++ [x]).length - 1)).drop
        ((old ++ [x]).length - 11)).map Prod.fst)
      = priorWindow old := by
  have h1 : (old ++ [x]).length - 1 = old.length := by simp
  have h2 : (old ++ [x]).length - 11 = old.length - 10 := by
    simp only [List.length_append, List.length_singleton]
    omega
  rw [h1, h2, priorWindow]
  congr 1
  rw [List.take_left]

/-- C2: for every sequence of `record_interaction` calls starting from the
empty state, the co-occurrence matrix is symmetric (`count(A,B) = count(B,A)`)
and no self-pair `(A,A)` is ever present in a row. -/
theorem C2_cooc_symmetric_no_selfpairs (tr : List InteractionEvent) (A B : String) :
    coocCount (runTrace tr).co_occurrence_matrix A B
        = coocCount (runTrace tr).co_occurrence_matrix B A
    ∧ alookup ((alookup (runTrace tr).co_occurrence_matrix A).getD []) A = none := by
  have h := coocInv_applyTrace tr mkRecommendationService
    ⟨fun _ _ => rfl, fun _ => rfl⟩
  exact ⟨h.1 A B, h.2 A⟩

/-- C1 (amended): `register_interaction` appends and returns the updated
history length, increments popularity once, and—for each product other than
`product_id`—increments the co-occurrence count once per OCCURRENCE of that
product in the prior window (the last `min(10, previous length)` entries
strictly before the new append), not once per distinct product. -/
theorem C1_register_interaction_amended (s : RecommendationService)
    (user_id product_id interaction_type : String) (timestamp : Nat) (other : String)
    (h : other ≠ product_id) :
    (register_interaction s user_id product_id interaction_type timestamp).2
        = ((alookup s.user_interactions user_id).getD []).length + 1
    ∧ alookup (register_interaction s user_id product_id interaction_type
          timestamp).1.product_popularity product_id
        = some ((alookup s.product_popularity product_id).getD 0 + 1)
    ∧ coocCount (register_interaction s user_id product_id interaction_type
          timestamp).1.co_occurrence_matrix product_id other
        = coocCount s.co_occurrence_matrix product_id other
          + (priorWindow ((alookup s.user_interactions user_id).getD [])).count other := by
  refine ⟨by simp [register_interaction], ?_, ?_⟩
  · simp only [register_interaction]
    exact alookup_aset_self _ _ _
  · simp only [register_interaction]
    rw [slice_eq_priorWindow, coocCount_foldl_coocStep product_id other h]

theorem C1_register_interaction_amended_witness :
    ("q" : String) ≠ "p"
    ∧ ((register_interaction mkRecommendationService "u" "p" "view" 0).2
          = ((alookup mkRecommendationService.user_interactions "u").getD []).length + 1
      ∧ alookup (register_interaction mkRecommendationService "u" "p" "view"
            0).1.product_popularity "p"
          = some ((alookup mkRecommendationService.product_popularity "p").getD 0 + 1)
      ∧ coocCount (register_interaction mkRecommendationService "u" "p" "view"
            0).1.co_occurrence_matrix "p" "q"
          = coocCount mkRecommendationService.co_occurrence_matrix "p" "q"
            + (priorWindow ((alookup mkRecommendationService.user_interactions
                "u").getD [])).count "q") :=
  ⟨by decide, C1_register_interaction_amended mkRecommendationService "u" "p" "view" 0 "q"
    (by decide)⟩

/-- Trace refuting C1 as stated: the same user views `p1` twice and then
`p2`; the prior window at the third call is `[p1, p1]`. -/
def c1trace : List InteractionEvent :=
  [⟨"u", "p1", "view", 0⟩, ⟨"u", "p1", "view", 1⟩, ⟨"u", "p2", "view", 2⟩]

/-- C1 counterexample: after the trace `u: p1, p1, p2`, the prior window of
the third call contains `p1` twice, and the code records co-occurrence 2 for
the pair `(p2, p1)` — not the single increment of 1 the claim requires for a
duplicated product. -/
theorem C1_counterexample :
    priorWindow ((alookup (runTrace (c1trace.take 2)).user_interactions "u").getD [])
        = ["p1", "p1"]
    ∧ coocCount (runTrace c1trace).co_occurrence_matrix "p2" "p1" = 2
    ∧ coocCount (runTrace c1trace).co_occurrence_matrix "p2" "p1" ≠ 1 := by
  decide

/-! ### FAISS service lemmas -/

theorem getD_index_len (s : FAISSService) :
    (s.index.getD (IndexType.L2, [])).2.length = s.ntotal := by
  rcases hI : s.index with _ | ⟨t, vs⟩ <;> simp [FAISSService.ntotal, hI]

/-- Keys below the starting position are untouched by the id-mapping loop. -/
theorem alookup_updateMapping_lt (ids : List String) (m : List (Nat × String))
    (cur k : Nat) (h : k < cur) :
    alookup (updateMapping m cur ids) k = alookup m k := by
  induction ids generalizing m cur with
  | nil => rfl
  | cons image_id rest ih =>
    rw [updateMapping, ih (aset m cur image_id) (cur + 1) (by omega)]
    exact alookup_aset_ne _ _ _ _ (by omega)

/-- Every id of the batch is mapped at its sequential position. -/
theorem alookup_updateMapping (ids : List String) (m : List (Nat × String)) (cur : Nat)
    (j : Nat) (hj : j < ids.length) :
    alookup (updateMapping m cur ids) (cur + j) = some (ids.get ⟨j, hj⟩) := by
  induction ids generalizing m cur j with
  | nil => exact absurd hj (by simp)
  | cons image_id rest ih =>
    cases j with
    | zero =>
      rw [updateMapping, Nat.add_zero, alookup_updateMapping_lt _ _ _ _ (by omega)]
      simp [alookup_aset_self]
    | succ j' =>
      rw [updateMapping]
      have : cur + (j' + 1) = (cur + 1) + j' := by omega
      rw [this, ih (aset m cur image_id) (cur + 1) j' (by simpa using hj)]
      rfl

/-- The successful branch of `add_embeddings`, written out. -/
theorem add_embeddings_ok (s : FAISSService) (e : NDArray) (ids : List String)
    (meta : Option (List MetaD)) (hd : e.dim = s.embedding_size)
    (hc : e.rows.length = ids.length) :
    add_embeddings s e ids meta
      = ({ embedding_size := s.embedding_size,
           index := some ((s.index.getD (IndexType.L2, [])).1,
             (s.index.getD (IndexType.L2, [])).2 ++ e.rows),
           id_mapping := updateMapping s.id_mapping
             (s.index.getD (IndexType.L2, [])).2.length ids,
           metadata := updateMetadata s.metadata ids (meta.getD []) }, none) := by
  simp [add_embeddings, hd, hc]

/-- C3: a batch with a wrong-length embedding or an id/embedding count
mismatch is rejected with the total, id mapping and metadata unchanged;
a batch passing both validations is appended in full, each record at the
next sequential position, and the total grows by the batch size. -/
theorem C3_add_embeddings_all_or_nothing (s : FAISSService) (e : NDArray)
    (ids : List String) (meta : Option (List MetaD)) :
    ((∃ r ∈ e.rows, r.length ≠ s.embedding_size) ∨ e.rows.length ≠ ids.length →
      (add_embeddings s e ids meta).2 ≠ none
      ∧ (add_embeddings s e ids meta).1.ntotal = s.ntotal
      ∧ (add_embeddings s e ids meta).1.id_mapping = s.id_mapping
      ∧ (add_embeddings s e ids meta).1.metadata = s.metadata)
    ∧ (e.dim = s.embedding_size → e.rows.length = ids.length →
      (add_embeddings s e ids meta).2 = none
      ∧ (add_embeddings s e ids meta).1.ntotal = s.ntotal + e.rows.length
      ∧ ∀ j, (hj : j < ids.length) →
          alookup (add_embeddings s e ids meta).1.id_mapping (s.ntotal + j)
            = some (ids.get ⟨j, hj⟩)) := by
  constructor
  · intro hbad
    have hfail : e.dim ≠ s.embedding_size ∨ e.rows.length ≠ ids.length := by
      rcases hbad with ⟨r, hr, hlen⟩ | hcnt
      · exact Or.inl (fun hdim => hlen (by rw [e.wf r hr, hdim]))
      · exact Or.inr hcnt
    by_cases hd : e.dim = s.embedding_size
    · have hc : e.rows.length ≠ ids.length := by tauto
      refine ⟨?_, ?_, ?_, ?_⟩ <;>
        simp [add_embeddings, hd, hc, FAISSService.ntotal, getD_index_len]
    · refine ⟨?_, ?_, ?_, ?_⟩ <;>
        simp [add_embeddings, hd, FAISSService.ntotal, getD_index_len]
  · intro hd hc
    rw [add_embeddings_ok s e ids meta hd hc]
    refine ⟨rfl, ?_, ?_⟩
    · simp [FAISSService.ntotal, getD_index_len s]
    · intro j hj
      simp only [← getD_index_len s]
      exact alookup_updateMapping ids s.id_mapping _ j hj

theorem C3_add_embeddings_all_or_nothing_witness :
    (((∃ r ∈ ([[1, 2, 3]] : List (List ℚ)), r.length ≠ 2) ∨ (1 : Nat) ≠ 1) →
      (add_embeddings (mkFAISSService 2) ⟨3, [[1, 2, 3]], by decide⟩ ["a"] none).2 ≠ none
      ∧ (add_embeddings (mkFAISSService 2) ⟨3, [[1, 2, 3]], by decide⟩ ["a"] none).1.ntotal
          = (mkFAISSService 2).ntotal
      ∧ (add_embeddings (mkFAISSService 2) ⟨3, [[1, 2, 3]], by decide⟩ ["a"]
          none).1.id_mapping = (mkFAISSService 2).id_mapping
      ∧ (add_embeddings (mkFAISSService 2) ⟨3, [[1, 2, 3]], by decide⟩ ["a"]
          none).1.metadata = (mkFAISSService 2).metadata)
    ∧ ((∃ r ∈ ([[1, 2, 3]] : List (List ℚ)), r.length ≠ 2) ∨ (1 : Nat) ≠ 1)
    ∧ ((2 : Nat) = 2 → (1 : Nat) = 1 →
      (add_embeddings (mkFAISSService 2) ⟨2, [[5, 6]], by decide⟩ ["b"] none).2 = none
      ∧ (add_embeddings (mkFAISSService 2) ⟨2, [[5, 6]], by decide⟩ ["b"] none).1.ntotal
          = (mkFAISSService 2).ntotal + 1
      ∧ ∀ j, (hj : j < (["b"] : List String).length) →
          alookup (add_embeddings (mkFAISSService 2) ⟨2, [[5, 6]], by decide⟩ ["b"]
              none).1.id_mapping ((mkFAISSService 2).ntotal + j)
            = some ((["b"] : List String).get ⟨j, hj⟩)) :=
  ⟨(C3_add_embeddings_all_or_nothing (mkFAISSService 2) ⟨3, [[1, 2, 3]], by decide⟩
      ["a"] none).1,
   Or.inl ⟨[1, 2, 3], by simp⟩,
   fun _ _ => (C3_add_embeddings_all_or_nothing (mkFAISSService 2)
      ⟨2, [[5, 6]], by decide⟩ ["b"] none).2 rfl rfl⟩

/-- C7 (amended): the service performs no validation of the dimension at
creation: for every embedding size — including 0 — and every supported index
type string, `create_index` succeeds and installs an empty index, and it
raises only for an unsupported index type string. -/
theorem C7_create_index_amended (d : Nat) (ty : String)
    (h : ty = "L2" ∨ ty = "Cosine" ∨ ty = "IVF") :
    (create_index (mkFAISSService d) ty).2 = none
    ∧ (create_index (mkFAISSService d) ty).1.embedding_size = d
    ∧ (create_index (mkFAISSService d) ty).1.ntotal = 0
    ∧ (create_index (mkFAISSService d) "bad").2 ≠ none := by
  rcases h with h | h | h <;> subst h <;>
    simp [create_index, mkFAISSService, FAISSService.ntotal]

theorem C7_create_index_amended_witness :
    (("L2" : String) = "L2" ∨ ("L2" : String) = "Cosine" ∨ ("L2" : String) = "IVF")
    ∧ ((create_index (mkFAISSService 0) "L2").2 = none
      ∧ (create_index (mkFAISSService 0) "L2").1.embedding_size = 0
      ∧ (create_index (mkFAISSService 0) "L2").1.ntotal = 0
      ∧ (create_index (mkFAISSService 0) "bad").2 ≠ none) :=
  ⟨Or.inl rfl, C7_create_index_amended 0 "L2" (Or.inl rfl)⟩

/-- C7 counterexample: with dimension 0 (≤ 0) and the supported type "L2",
`create_index` succeeds — there is no `InvalidConfig` failure — and an empty
index of dimension 0 is initialized. -/
theorem C7_counterexample :
    (create_index (mkFAISSService 0) "L2").2 = none
    ∧ (create_index (mkFAISSService 0) "L2").1.index = some (IndexType.L2, [])
    ∧ (create_index (mkFAISSService 0) "L2").1.embedding_size = 0 := by
  simp [create_index, mkFAISSService]

/-- The successful branch of `search` with `return_distances = true`,
written out. -/
theorem search_ok (s : FAISSService) (t : IndexType) (vs : List (List ℚ))
    (hI : s.index = some (t, vs)) (hvs : vs.length ≠ 0) (q : List ℚ) (k : Nat)
    (h : q.length = s.embedding_size) :
    search s q k true
      = Except.ok (((sortedBy (fun a b => betterB (metricOf t) a.2 b.2)
          (vs.enum.map (fun p => (p.1, rawScore (metricOf t) q p.2)))).take
            (min k vs.length)).filterMap (fun p =>
          (alookup s.id_mapping p.1).map (fun image_id => (image_id, 1 / (1 + p.2))))) := by
  simp only [search, hI]
  rw [if_neg hvs, if_neg (by simp [h])]
  simp

/-- C9: search never fails because `k` exceeds the index size: with a query
of the right length it always succeeds, and the result count is clamped to
`min k ntotal`, hence at most the number of stored vectors. -/
theorem C9_search_clamps_k (s : FAISSService) (q : List ℚ) (k : Nat)
    (h : q.length = s.embedding_size) :
    ∃ rs, search s q k true = Except.ok rs
      ∧ rs.length ≤ min k s.ntotal ∧ rs.length ≤ s.ntotal := by
  rcases hI : s.index with _ | ⟨t, vs⟩
  · exact ⟨[], by simp [search, hI], by simp, by simp⟩
  · by_cases hvs : vs.length = 0
    · exact ⟨[], by simp [search, hI, hvs], by simp, by simp⟩
    · refine ⟨_, search_ok s t vs hI hvs q k h, ?_, ?_⟩ <;>
      · have h1 := List.length_filterMap_le
          (fun p : Nat × ℚ => (alookup s.id_mapping p.1).map (fun image_id =>
            (image_id, 1 / (1 + p.2))))
          ((sortedBy (fun a b => betterB (metricOf t) a.2 b.2)
            (vs.enum.map (fun p => (p.1, rawScore (metricOf t) q p.2)))).take
            (min k vs.length))
        have h2 : ((sortedBy (fun a b => betterB (metricOf t) a.2 b.2)
            (vs.enum.map (fun p => (p.1, rawScore (metricOf t) q p.2)))).take
            (min k vs.length)).length ≤ min k vs.length := by
          simp [List.length_take, length_sortedBy]
        have h3 : s.ntotal = vs.length := by simp [FAISSService.ntotal, hI]
        simp only [h3]
        omega

/-- A small concrete index used to witness C9: two stored vectors of
dimension 1. -/
def c9state : FAISSService :=
  { embedding_size := 1, index := some (IndexType.L2, [[2], [3]]),
    id_mapping := [(0, "a"), (1, "b")], metadata := [] }

theorem C9_search_clamps_k_witness :
    (([0] : List ℚ).length = c9state.embedding_size)
    ∧ ∃ rs, search c9state [0] 7 true = Except.ok rs
        ∧ rs.length ≤ min 7 c9state.ntotal ∧ rs.length ≤ c9state.ntotal :=
  ⟨rfl, C9_search_clamps_k c9state [0] 7 rfl⟩

/-- C10: adding the same identifier more than once keeps every position in
the id mapping, but the per-identifier metadata dict keeps only the metadata
supplied with the most recent occurrence — both within one batch and across
two batches. -/
theorem C10_metadata_last_write_wins (s : FAISSService) (image_id : String)
    (e e1 e2 : NDArray) (m1 m2 : MetaD)
    (hd : e.dim = s.embedding_size) (hr : e.rows.length = 2)
    (hd1 : e1.dim = s.embedding_size) (hr1 : e1.rows.length = 1)
    (hd2 : e2.dim = s.embedding_size) (hr2 : e2.rows.length = 1) :
    (alookup (add_embeddings s e [image_id, image_id]
          (some [m1, m2])).1.metadata image_id = some m2
      ∧ alookup (add_embeddings s e [image_id, image_id]
          (some [m1, m2])).1.id_mapping s.ntotal = some image_id
      ∧ alookup (add_embeddings s e [image_id, image_id]
          (some [m1, m2])).1.id_mapping (s.ntotal + 1) = some image_id)
    ∧ (alookup (add_embeddings (add_embeddings s e1 [image_id] (some [m1])).1 e2
          [image_id] (some [m2])).1.metadata image_id = some m2
      ∧ alookup (add_embeddings (add_embeddings s e1 [image_id] (some [m1])).1 e2
          [image_id] (some [m2])).1.id_mapping s.ntotal = some image_id
      ∧ alookup (add_embeddings (add_embeddings s e1 [image_id] (some [m1])).1 e2
          [image_id] (some [m2])).1.id_mapping (s.ntotal + 1) = some image_id) := by
  constructor
  · rw [add_embeddings_ok s e [image_id, image_id] (some [m1, m2]) hd (by simp [hr])]
    refine ⟨?_, ?_, ?_⟩
    · simp [updateMetadata, alookup_aset_self]
    · have h0 := alookup_updateMapping [image_id, image_id] s.id_mapping
        (s.index.getD (IndexType.L2, [])).2.length 0 (by simp)
      simpa [getD_index_len s] using h0
    · have h1 := alookup_updateMapping [image_id, image_id] s.id_mapping
        (s.index.getD (IndexType.L2, [])).2.length 1 (by simp)
      simpa [getD_index_len s] using h1
  · have h1 : (add_embeddings s e1 [image_id] (some [m1])).1
        = { embedding_size := s.embedding_size,
            index := some ((s.index.getD (IndexType.L2, [])).1,
              (s.index.getD (IndexType.L2, [])).2 ++ e1.rows),
            id_mapping := updateMapping s.id_mapping
              (s.index.getD (IndexType.L2, [])).2.length [image_id],
            metadata := updateMetadata s.metadata [image_id] [m1] } := by
      rw [add_embeddings_ok s e1 [image_id] (some [m1]) hd1 (by simp [hr1])]
      rfl
    rw [h1]
    set s1 : FAISSService :=
      { embedding_size := s.embedding_size,
        index := some ((s.index.getD (IndexType.L2, [])).1,
          (s.index.getD (IndexType.L2, [])).2 ++ e1.rows),
        id_mapping := updateMapping s.id_mapping
          (s.index.getD (IndexType.L2, [])).2.length [image_id],
        metadata := updateMetadata s.metadata [image_id] [m1] } with hs1
    have hs1tot : s1.ntotal = s.ntotal + 1 := by
      rw [hs1]
      simp [FAISSService.ntotal, hr1, getD_index_len s]
    have hcur : (s1.index.getD (IndexType.L2, [])).2.length = s.ntotal + 1 := by
      rw [getD_index_len s1, hs1tot]
    rw [add_embeddings_ok s1 e2 [image_id] (some [m2]) hd2 (by simp [hr2])]
    refine ⟨?_, ?_, ?_⟩
    · simp [updateMetadata, alookup_aset_self]
    · show alookup (updateMapping s1.id_mapping
        (s1.index.getD (IndexType.L2, [])).2.length [image_id]) s.ntotal = some image_id
      rw [hcur, alookup_updateMapping_lt _ _ _ _ (by omega), hs1]
      have h0 := alookup_updateMapping [image_id] s.id_mapping
        (s.index.getD (IndexType.L2, [])).2.length 0 (by simp)
      simpa [getD_index_len s] using h0
    · have h0 := alookup_updateMapping [image_id] s1.id_mapping
        (s1.index.getD (IndexType.L2, [])).2.length 0 (by simp)
      simpa [hs1, getD_index_len s, hr1] using h0

theorem C10_metadata_last_write_wins_witness :
    ((2 : Nat) = (mkFAISSService 2).embedding_size
      ∧ ([[1, 0], [0, 1]] : List (List ℚ)).length = 2
      ∧ ([[1, 0]] : List (List ℚ)).length = 1
      ∧ ([[0, 1]] : List (List ℚ)).length = 1)
    ∧ ((alookup (add_embeddings (mkFAISSService 2) ⟨2, [[1, 0], [0, 1]], by decide⟩
          ["x", "x"] (some [[("k", "1")], [("k", "2")]])).1.metadata "x"
            = some [("k", "2")]
      ∧ alookup (add_embeddings (mkFAISSService 2) ⟨2, [[1, 0], [0, 1]], by decide⟩
          ["x", "x"] (some [[("k", "1")], [("k", "2")]])).1.id_mapping
            (mkFAISSService 2).ntotal = some "x"
      ∧ alookup (add_embeddings (mkFAISSService 2) ⟨2, [[1, 0], [0, 1]], by decide⟩
          ["x", "x"] (some [[("k", "1")], [("k", "2")]])).1.id_mapping
            ((mkFAISSService 2).ntotal + 1) = some "x")
    ∧ (alookup (add_embeddings (add_embeddings (mkFAISSService 2)
          ⟨2, [[1, 0]], by decide⟩ ["x"] (some [[("k", "1")]])).1
          ⟨2, [[0, 1]], by decide⟩ ["x"] (some [[("k", "2")]])).1.metadata "x"
            = some [("k", "2")]
      ∧ alookup (add_embeddings (add_embeddings (mkFAISSService 2)
          ⟨2, [[1, 0]], by decide⟩ ["x"] (some [[("k", "1")]])).1
          ⟨2, [[0, 1]], by decide⟩ ["x"] (some [[("k", "2")]])).1.id_mapping
            (mkFAISSService 2).ntotal = some "x"
      ∧ alookup (add_embeddings (add_embeddings (mkFAISSService 2)
          ⟨2, [[1, 0]], by decide⟩ ["x"] (some [[("k", "1")]])).1
          ⟨2, [[0, 1]], by decide⟩ ["x"] (some [[("k", "2")]])).1.id_mapping
            ((mkFAISSService 2).ntotal + 1) = some "x")) :=
  ⟨⟨rfl, rfl, rfl, rfl⟩,
   C10_metadata_last_write_wins (mkFAISSService 2) "x"
     ⟨2, [[1, 0], [0, 1]], by decide⟩ ⟨2, [[1, 0]], by decide⟩
     ⟨2, [[0, 1]], by decide⟩ [("k", "1")] [("k", "2")]
     rfl rfl rfl rfl rfl rfl⟩

/-- A single-vector inner-product index used for C4: one pre-normalized
stored vector. -/
def c4state : FAISSService :=
  { embedding_size := 2, index := some (IndexType.Cosine, [[1, 0]]),
    id_mapping := [(0, "a")], metadata := [] }

/-- C4 (amended): when `return_distances` is set, the reported similarity is
`1 / (1 + raw)` for the raw metric value under BOTH metrics — the raw inner
product is never used directly as the similarity — so under the
inner-product metric a stored pre-normalized vector matching the query
(inner product 1) is returned ranked first but with similarity 1/2, not
1.0. -/
theorem C4_search_similarity_amended (s : FAISSService) (t : IndexType) (v q : List ℚ)
    (image_id : String) (k : Nat) (hI : s.index = some (t, [v]))
    (hid : alookup s.id_mapping 0 = some image_id)
    (hq : q.length = s.embedding_size) (hk : 1 ≤ k) :
    search s q k true = Except.ok [(image_id, 1 / (1 + rawScore (metricOf t) q v))]
    ∧ (t = IndexType.Cosine → dot q v = 1 →
        search s q k true = Except.ok [(image_id, 1 / 2)]) := by
  have hmain : search s q k true
      = Except.ok [(image_id, 1 / (1 + rawScore (metricOf t) q v))] := by
    rw [search_ok s t [v] hI (by simp) q k hq]
    have hmin : min k 1 = 1 := by omega
    simp [hmin, sortedBy, insertRanked, hid, List.enum, List.enumFrom]
  refine ⟨hmain, fun ht hdot => ?_⟩
  subst ht
  rw [hmain]
  have : rawScore (metricOf IndexType.Cosine) q v = 1 := by
    simp [metricOf, rawScore, hdot]
  rw [this]
  norm_num

theorem C4_search_similarity_amended_witness :
    (c4state.index = some (IndexType.Cosine, [[1, 0]])
      ∧ alookup c4state.id_mapping 0 = some "a"
      ∧ ([1, 0] : List ℚ).length = c4state.embedding_size
      ∧ 1 ≤ 5)
    ∧ (search c4state [1, 0] 5 true
        = Except.ok [("a", 1 / (1 + rawScore (metricOf IndexType.Cosine) [1, 0] [1, 0]))]
      ∧ (IndexType.Cosine = IndexType.Cosine → dot [1, 0] [1, 0] = 1 →
          search c4state [1, 0] 5 true = Except.ok [("a", 1 / 2)])) :=
  ⟨⟨rfl, rfl, rfl, by omega⟩,
   C4_search_similarity_amended c4state IndexType.Cosine [1, 0] [1, 0] "a" 5
     rfl rfl rfl (by omega)⟩

/-- C4 counterexample: on an inner-product ("Cosine") index holding the
pre-normalized vector `[1, 0]`, searching with the identical query returns
that vector with similarity 1/2 — the raw inner product 1 is pushed through
`1 / (1 + value)` — not the similarity 1.0 the claim requires. -/
theorem C4_counterexample :
    search c4state [1, 0] 5 true = Except.ok [("a", 1 / 2)]
    ∧ ((1 : ℚ) / 2) ≠ 1 := by
  constructor
  · rw [search_ok c4state IndexType.Cosine [[1, 0]] rfl (by simp) [1, 0] 5 rfl]
    have hdot : rawScore (metricOf IndexType.Cosine) ([1, 0] : List ℚ) [1, 0] = 1 := by
      simp [metricOf, rawScore, dot]
    simp [sortedBy, insertRanked, List.enum, List.enumFrom, hdot, c4state, alookup]
    norm_num
  · norm_num

/-- A snapshot whose metadata file declares embedding size 5 while the index
file holds a vector of length 3. -/
def corruptDimFile : SnapshotFile :=
  { indexData := Except.ok (IndexType.L2, [[1, 2, 3]]),
    metaFile := some (Except.ok ([(0, "a")], [], 5)) }

/-- C6 (amended): a missing snapshot yields `false` with the prior state
untouched, and an unreadable index file raises with the prior state
untouched — these parts of the claim hold; but an unreadable metadata file
raises only AFTER the index has been replaced, and a snapshot whose declared
embedding size disagrees with the stored vectors' length is loaded
successfully: no dimension consistency check exists. -/
theorem C6_load_index_amended (s : FAISSService) (f : SnapshotFile) :
    (load_index s none = (s, Except.ok false))
    ∧ (∀ e, f.indexData = Except.error e →
        (load_index s (some f)).1 = s
        ∧ (load_index s (some f)).2 = Except.error "read_index failed")
    ∧ (∀ tv e, f.indexData = Except.ok tv → f.metaFile = some (Except.error e) →
        (load_index s (some f)).1.index = some tv
        ∧ (load_index s (some f)).2 = Except.error "unpickle failed")
    ∧ (∀ tv idm md esz, f.indexData = Except.ok tv →
        f.metaFile = some (Except.ok (idm, md, esz)) →
        (load_index s (some f)).2 = Except.ok true
        ∧ (load_index s (some f)).1.embedding_size = esz
        ∧ (load_index s (some f)).1.index = some tv) := by
  refine ⟨rfl, ?_, ?_, ?_⟩
  · intro e he
    constructor <;> simp [load_index, he]
  · intro tv e hok hmeta
    constructor <;> simp [load_index, hok, hmeta]
  · intro tv idm md esz hok hmeta
    refine ⟨?_, ?_, ?_⟩ <;> simp [load_index, hok, hmeta]

theorem C6_load_index_amended_witness :
    load_index (mkFAISSService 1280) none = (mkFAISSService 1280, Except.ok false)
    ∧ ((load_index (mkFAISSService 1280) (some corruptDimFile)).2 = Except.ok true
      ∧ (load_index (mkFAISSService 1280) (some corruptDimFile)).1.embedding_size = 5
      ∧ (load_index (mkFAISSService 1280) (some corruptDimFile)).1.index
          = some (IndexType.L2, [[1, 2, 3]])) :=
  ⟨(C6_load_index_amended (mkFAISSService 1280) corruptDimFile).1,
   (C6_load_index_amended (mkFAISSService 1280) corruptDimFile).2.2.2
     (IndexType.L2, [[1, 2, 3]]) [(0, "a")] [] 5 rfl rfl⟩

/-- C6 counterexample: restoring a snapshot whose declared dimension (5)
does not match the contained vector's length (3) succeeds with `True` — the
claim's required `CorruptSnapshot` failure does not happen. -/
theorem C6_counterexample :
    (load_index (mkFAISSService 1280) (some corruptDimFile)).2 = Except.ok true
    ∧ (load_index (mkFAISSService 1280) (some corruptDimFile)).1.embedding_size = 5
    ∧ (load_index (mkFAISSService 1280)
        (some corruptDimFile)).1.index.map (fun tv => tv.2.map List.length)
        = some [3] := by
  refine ⟨?_, ?_, ?_⟩ <;> simp [load_index, corruptDimFile, mkFAISSService]

/-- C5 (amended): `get_recommendations` never fails on an unrecognized
strategy name: every strategy string other than "visual" and "collaborative"
falls into the `else` branch and is served as hybrid with the default
weights 0.5/0.5 — there is no `InvalidStrategy` error. -/
theorem C5_unknown_strategy_is_hybrid (s : RecommendationService) (pid : String)
    (user_id : Option String) (n : Nat) (strategy : String)
    (h1 : strategy ≠ "visual") (h2 : strategy ≠ "collaborative") :
    get_recommendations s (some pid) user_id n strategy
      = get_hybrid_recommendations s pid n (1 / 2) (1 / 2) := by
  simp [get_recommendations, h1, h2]

theorem C5_unknown_strategy_is_hybrid_witness :
    ("foo" : String) ≠ "visual"
    ∧ ("foo" : String) ≠ "collaborative"
    ∧ get_recommendations mkRecommendationService (some "p1") none 5 "foo"
        = get_hybrid_recommendations mkRecommendationService "p1" 5 (1 / 2) (1 / 2) :=
  ⟨by decide, by decide,
   C5_unknown_strategy_is_hybrid mkRecommendationService "p1" none 5 "foo"
     (by decide) (by decide)⟩

/-- Trace for the C5 counterexample: user `u` views `p1` then `p2`, so `p1`
has the co-occurring neighbour `p2`. -/
def c5trace : List InteractionEvent :=
  [⟨"u", "p1", "view", 0⟩, ⟨"u", "p2", "view", 1⟩]

/-- C5 counterexample: with a resolvable anchor (`p1`) and the unrecognized
strategy string "foo", `get_recommendations` does not fail — it returns the
non-empty hybrid result, contradicting the required `InvalidStrategy`
error. -/
theorem C5_counterexample :
    get_recommendations (runTrace c5trace) (some "p1") none 5 "foo"
        = [("p2", 1 / 2, "Visto junto 1 veces")]
    ∧ get_recommendations (runTrace c5trace) (some "p1") none 5 "foo" ≠ [] := by
  have hstate : runTrace c5trace
      = { co_occurrence_matrix := [("p2", [("p1", 1)]), ("p1", [("p2", 1)])],
          user_interactions := [("u", [("p1", 0), ("p2", 1)])],
          product_popularity := [("p1", 1), ("p2", 1)] } := by decide
  have heval : get_recommendations (runTrace c5trace) (some "p1") none 5 "foo"
      = [("p2", 1 / 2, "Visto junto 1 veces")] := by
    rw [hstate]
    simp [get_recommendations, get_hybrid_recommendations, get_visual_recommendations,
      get_collaborative_recommendations, alookup, aset, sortedBy, insertRanked, maxVals,
      String.intercalate, List.intersperse]
    decide
  exact ⟨heval, by rw [heval]; simp⟩

/-- C8: `get_visual_recommendations` is an unimplemented stub — the body
builds `recommendations = []` under a TODO and returns it — so it returns
the empty list for every state, product and count, never consulting the
metadata/embedding lookup or the index; no index state can make it return a
non-empty result. -/
theorem C8_get_visual_is_stub (s : RecommendationService) (product_id : String) (n : Nat) :
    get_visual_recommendations s product_id n = [] := rfl

end BoutiqueML
